import Mathlib

/-!
Verification of the core of the ModeloSuicidio repository: a three-compartment
nonlinear ODE model (susceptible / in-treatment / recovered) driven by a
linearly interpolated exogenous population series, with initial-condition
derivation, residual computation and a bounded least-squares calibration loop.

The repository contains two near-duplicate implementation trees:
  * the `core` tree  (`modelo_suicidio/core/*.py` together with
    `ModeloSuicidio/modelo_suicidio/modelo_suicidio/core/calibration.py`,
    whose relative imports `.parameters`, `.nonlinear_model`, `.analysis`
    resolve to files identical to the ones under `modelo_suicidio/core/`):
    class `ModeloNoLineal`, `condiciones_iniciales(df, params, anio_ini)`,
    `prueba_escritorio(df, params, anio_ini, anio_fin)`,
    `calibrar_parametros(df, params_base, anio_ini, anio_fin, ...)`;
  * the `app` tree (`modelo_suicidio/modelo_suicidio/*.py`):
    class `ModeloSuicidio`, `condiciones_iniciales(df, params)`,
    `prueba_escritorio(df, params)`, `calibrar_parametros(df, params_iniciales)`.

Floating-point numbers of the source are modelled as rationals (`ℚ`), so all
arithmetic is exact and every definition is executable.  External library
calls (`scipy.integrate.solve_ivp`, `scipy.optimize.least_squares`) are not
part of the repository; code that consumes their results is modelled as a
function of an explicit outcome value (`IvpSol`, an `optimizer` argument),
so that the repository's own control flow around those calls is embedded
faithfully.
-/

/-- The ten-field parameter record `ModeloParametros`
(`modelo_suicidio/core/parameters.py` and
`modelo_suicidio/modelo_suicidio/parameters.py`, identical field lists). -/
structure ModeloParametros where
  delta : ℚ
  delta_s : ℚ
  delta_n : ℚ
  m : ℚ
  phi : ℚ
  psi : ℚ
  theta : ℚ
  rho : ℚ
  beta : ℚ
  gamma : ℚ
deriving Repr, DecidableEq

/-- Model state `y = [S, T, R]` (a length-3 numpy vector in the source). -/
structure Estado where
  S : ℚ
  T : ℚ
  R : ℚ
deriving Repr, DecidableEq

/-- One row of the observation DataFrame: columns `anio`,
`Poblacion_10ymas_P`, `T_obs`. -/
structure ObsRow where
  anio : Int
  poblacion_10ymas_P : ℚ
  T_obs : ℚ
deriving Repr, DecidableEq

/-- `np.interp` over a list of (x, y) knots, assumed sorted by x (both model
classes sort / receive sorted year series): piecewise-linear interpolation
with flat continuation outside the sampled range.  `np.interp` on an empty
series raises; the value 0 stands in for that unused corner. -/
def interp : List (ℚ × ℚ) → ℚ → ℚ
  | [], _ => 0
  | (x1, y1) :: tl, t =>
    match tl with
    | [] => y1
    | (x2, y2) :: _ =>
      if t ≤ x1 then y1
      else if t ≤ x2 then y1 + (y2 - y1) * (t - x1) / (x2 - x1)
      else interp tl t

namespace ModeloNoLineal

/-- `ModeloNoLineal.P_t` (`core/nonlinear_model.py:18-22`): linear
interpolation of the population series. -/
def P_t (anios P : List ℚ) (t : ℚ) : ℚ :=
  interp (anios.zip P) t

/-- The value of `P_val` after the division-by-zero guard of
`core/nonlinear_model.py:40-44`: `if P_val < 1e-9: P_val = 1.0`. -/
def P_val (anios P : List ℚ) (t : ℚ) : ℚ :=
  let v := P_t anios P t
  if v < 1 / 1000000000 then 1 else v

/-- `ModeloNoLineal.rhs` (`core/nonlinear_model.py:24-63`). -/
def rhs (p : ModeloParametros) (anios Pser : List ℚ) (t : ℚ) (y : Estado) : Estado :=
  let S := y.S
  let T := y.T
  let R := y.R
  let Pv := P_val anios Pser t
  let term_influencia := p.beta * p.delta_s * (T / Pv) * S
  let term_otras := p.gamma * (1 - p.beta) * p.delta_s * S
  let dS := p.theta * Pv + (1 - p.delta_n) * R - term_otras - term_influencia
            - p.delta_s * S - p.delta_n * S
  let dT := term_otras + term_influencia - p.rho * T - p.delta_s * T - p.delta_n * T
  let dR := p.rho * T - R
  ⟨dS, dT, dR⟩

end ModeloNoLineal

namespace ModeloSuicidio

/-- `ModeloSuicidio.P_t` (`modelo_suicidio/model.py:53-68`). -/
def P_t (anios P : List ℚ) (t : ℚ) : ℚ :=
  interp (anios.zip P) t

/-- The value of `P` after the division-by-zero guard of
`modelo_suicidio/model.py:89-93`: `if P < 1.0: P = 1.0`. -/
def P_val (anios P : List ℚ) (t : ℚ) : ℚ :=
  let v := P_t anios P t
  if v < 1 then 1 else v

/-- `ModeloSuicidio.rhs` (`modelo_suicidio/model.py:70-148`), with the
source's named auxiliary terms. -/
def rhs (p : ModeloParametros) (anios Pser : List ℚ) (t : ℚ) (y : Estado) : Estado :=
  let S := y.S
  let T := y.T
  let R := y.R
  let P := P_val anios Pser t
  let entrada_S_desde_P := p.theta * P
  let regreso_R_a_S := (1 - p.delta_n) * R
  let salida_S_influencia := p.gamma * (1 - p.beta) * p.delta_s * S
  let salida_S_contagio := p.beta * p.delta_s * (T / P) * S
  let mortalidad_S_suicidio := p.delta_s * S
  let mortalidad_S_natural := p.delta_n * S
  let dS_dt := entrada_S_desde_P + regreso_R_a_S - salida_S_influencia
               - salida_S_contagio - mortalidad_S_suicidio - mortalidad_S_natural
  let entrada_T_desde_S := salida_S_influencia + salida_S_contagio
  let salida_T_recuperacion := p.rho * T
  let mortalidad_T_suicidio := p.delta_s * T
  let mortalidad_T_natural := p.delta_n * T
  let dT_dt := entrada_T_desde_S - salida_T_recuperacion
               - mortalidad_T_suicidio - mortalidad_T_natural
  let entrada_R_desde_T := salida_T_recuperacion
  let salida_R := R
  let dR_dt := entrada_R_desde_T - salida_R
  ⟨dS_dt, dT_dt, dR_dt⟩

end ModeloSuicidio

/-- Modelled from the spec: the derivative formulas of §4.2 (claim C1) as
written in the spec, with `P` an explicit argument:
`inflow_influence = beta*delta_s*(T/P)*S`,
`inflow_other = gamma*(1-beta)*delta_s*S`,
`dS = theta*P + (1-delta_n)*R - inflow_other - inflow_influence - delta_s*S - delta_n*S`,
`dT = inflow_other + inflow_influence - rho*T - delta_s*T - delta_n*T`,
`dR = rho*T - R`.  To be compared against the two `rhs` embeddings. -/
def specDeriv (p : ModeloParametros) (P : ℚ) (y : Estado) : Estado :=
  let inflow_influence := p.beta * p.delta_s * (y.T / P) * y.S
  let inflow_other := p.gamma * (1 - p.beta) * p.delta_s * y.S
  ⟨p.theta * P + (1 - p.delta_n) * y.R - inflow_other - inflow_influence
     - p.delta_s * y.S - p.delta_n * y.S,
   inflow_other + inflow_influence - p.rho * y.T - p.delta_s * y.T - p.delta_n * y.T,
   p.rho * y.T - y.R⟩

/-- Errors raised by the core tree's helpers (`ValueError` in Python). -/
inductive CoreError where
  | missingYear (anio : Int)
deriving Repr, DecidableEq

namespace core

/-- `condiciones_iniciales(df, params, anio_ini)` (`core/analysis.py:6-25`):
looks the year up in the table (first matching row, as
`df[df['anio'] == anio_ini] ... .values[0]`), raises when absent, and
returns `[S0, T0, R0]` with `T0 = m*P0`, `R0 = phi*T0`, `S0 = P0-T0-R0`.
No component is clamped in this variant. -/
def condiciones_iniciales (df : List ObsRow) (params : ModeloParametros)
    (anio_ini : Int) : Except CoreError Estado :=
  match df.find? (fun r => r.anio == anio_ini) with
  | none => .error (.missingYear anio_ini)
  | some row =>
    let P0 := row.poblacion_10ymas_P
    let T0 := params.m * P0
    let R0 := params.phi * T0
    let S0 := P0 - T0 - R0
    .ok ⟨S0, T0, R0⟩

end core

namespace app

/-- `condiciones_iniciales(df, params)` (`modelo_suicidio/analysis.py:15-64`):
uses the first row of the table (`.iloc[0]`, an `IndexError` when the table
is empty), computes the same `[S0, T0, R0]`, and clamps each negative
component to zero, printing one warning per clamped component.  The printed
warnings are modelled as a returned list of strings. -/
def condiciones_iniciales (df : List ObsRow) (params : ModeloParametros) :
    Except String (Estado × List String) :=
  match df with
  | [] => .error "IndexError: single positional indexer is out-of-bounds"
  | row :: _ =>
    let P0 := row.poblacion_10ymas_P
    let T0 := params.m * P0
    let R0 := params.phi * T0
    let S0 := P0 - T0 - R0
    let pairS := if S0 < 0 then ((0 : ℚ), ["Advertencia: S0 < 0. Ajustando a 0."])
                 else (S0, [])
    let pairT := if T0 < 0 then ((0 : ℚ), ["Advertencia: T0 < 0. Ajustando a 0."])
                 else (T0, [])
    let pairR := if R0 < 0 then ((0 : ℚ), ["Advertencia: R0 < 0. Ajustando a 0."])
                 else (R0, [])
    .ok (⟨pairS.1, pairT.1, pairR.1⟩, pairS.2 ++ pairT.2 ++ pairR.2)

end app

/-- Outcome of a `scipy.integrate.solve_ivp` call, as consumed by the code
after the call: the success flag, the solver message, and the evaluated
trajectory (`sol.t`, columns of `sol.y`). -/
structure IvpSol where
  success : Bool
  message : String
  ts : List ℚ
  ys : List Estado
deriving Repr, DecidableEq

namespace ModeloNoLineal

/-- The tail of `ModeloNoLineal.simular` (`core/nonlinear_model.py:65-86`)
after `solve_ivp` returns: on non-success it only prints
`Advertencia en simulacion: ...` and still returns `sol.t, sol.y.T`.
The printed warnings are modelled as the first component. -/
def simular (sol : IvpSol) : List String × (List ℚ × List Estado) :=
  if sol.success then ([], (sol.ts, sol.ys))
  else (["Advertencia en simulacion: " ++ sol.message], (sol.ts, sol.ys))

end ModeloNoLineal

namespace ModeloSuicidio

/-- The tail of `ModeloSuicidio.simular` (`modelo_suicidio/model.py:150-198`)
after `solve_ivp` returns: raises `RuntimeError` on non-success, otherwise
returns the trajectory. -/
def simular (sol : IvpSol) : Except String (List ℚ × List Estado) :=
  if sol.success then .ok (sol.ts, sol.ys)
  else .error ("La integracion fallo: " ++ sol.message)

end ModeloSuicidio

/-- One row of the trajectory DataFrame `res_df` built by the core
`prueba_escritorio` from the solver output. -/
structure SimRow where
  anio : ℚ
  S_model : ℚ
  T_model : ℚ
  R_model : ℚ
deriving Repr, DecidableEq

/-- One row of the merged table returned by the core `prueba_escritorio`:
`Option` models the NaN that pandas puts in unmatched left-join columns and
propagates through the error arithmetic. -/
structure MergedRow where
  anio : ℚ
  S_model : ℚ
  T_model : ℚ
  R_model : ℚ
  T_obs : Option ℚ
  error_abs : Option ℚ
  error_rel : Option ℚ
deriving Repr, DecidableEq

namespace core

/-- The merge-and-error tail of `prueba_escritorio`
(`core/analysis.py:54-69`), as a function of the trajectory rows `res_df`
built from the solver output: `pd.merge(res_df, df_obs, on='anio',
how='left')` keeps every trajectory row (years are unique by the
observation-table invariant, so at most one observation matches), and then
`error_abs = T_model - T_obs`, `error_rel = (error_abs / T_obs).abs()`. -/
def prueba_escritorio (df : List ObsRow) (sim : List SimRow) : List MergedRow :=
  sim.map fun s =>
    match df.find? (fun r => ((r.anio : ℚ) == s.anio)) with
    | some r =>
      let ea := s.T_model - r.T_obs
      { anio := s.anio, S_model := s.S_model, T_model := s.T_model,
        R_model := s.R_model, T_obs := some r.T_obs,
        error_abs := some ea, error_rel := some |ea / r.T_obs| }
    | none =>
      { anio := s.anio, S_model := s.S_model, T_model := s.T_model,
        R_model := s.R_model, T_obs := none,
        error_abs := none, error_rel := none }

end core

/-- One row of the results DataFrame of the app `prueba_escritorio`
(`modelo_suicidio/analysis.py:115-127`). -/
structure ResRow where
  anio : Int
  P : ℚ
  T_obs : ℚ
  T_model : ℚ
  S_model : ℚ
  R_model : ℚ
  error_abs : ℚ
  error_rel : ℚ
  error_rel_pct : ℚ
deriving Repr, DecidableEq

namespace app

/-- The table-building tail of the app `prueba_escritorio`
(`modelo_suicidio/analysis.py:110-127`), as a function of the
`evaluar_en_puntos` output at exactly the observed years (so the k-th model
triple `(S, T, R)` lines up with the k-th observation row; no join is
performed): `error_abs = T_model - T_obs`,
`error_rel = error_abs / T_obs` (signed, no absolute value). -/
def prueba_escritorio (df : List ObsRow) (sim : List (ℚ × ℚ × ℚ)) : List ResRow :=
  (df.zip sim).map fun pr =>
    match pr with
    | (r, (sm, tm, rm)) =>
      { anio := r.anio, P := r.poblacion_10ymas_P, T_obs := r.T_obs,
        T_model := tm, S_model := sm, R_model := rm,
        error_abs := tm - r.T_obs,
        error_rel := (tm - r.T_obs) / r.T_obs,
        error_rel_pct := (tm - r.T_obs) / r.T_obs * 100 }

end app

/-- Rebuilding a `ModeloParametros` from the fixed fields of a base record
and a trial vector `(theta, rho, beta, gamma)`, as both calibration
variants do before every objective evaluation and again for the final
result. -/
def updateCalibrados (base : ModeloParametros) (v : ℚ × ℚ × ℚ × ℚ) :
    ModeloParametros :=
  { base with theta := v.1, rho := v.2.1, beta := v.2.2.1, gamma := v.2.2.2 }

namespace core

/-- The objective closure `residuals(p_vec)` of the core
`calibrar_parametros`
(`ModeloSuicidio/.../core/calibration.py:46-97`): rebuilds the parameters,
wraps the initial-condition call in `try/except` (sentinel `1e6` vector on
failure), wraps the `solve_ivp` call in `try/except` with a status check
(same sentinel), checks the returned length, and otherwise returns
`T_model - T_obs`.  The integration is abstracted as `integrate`, returning
the `T` row of `sol.y` at the observed years or a failure. -/
def residuals (df : List ObsRow) (params_base : ModeloParametros)
    (anio_ini : Int) (T_obs_vals : List ℚ)
    (integrate : ModeloParametros → Estado → Except String (List ℚ))
    (p_vec : ℚ × ℚ × ℚ × ℚ) : List ℚ :=
  let p := updateCalibrados params_base p_vec
  match condiciones_iniciales df p anio_ini with
  | .error _ => T_obs_vals.map fun _ => 1000000
  | .ok init_cond =>
    match integrate p init_cond with
    | .error _ => T_obs_vals.map fun _ => 1000000
    | .ok T_model =>
      if T_model.length ≠ T_obs_vals.length then T_obs_vals.map fun _ => 1000000
      else (T_model.zip T_obs_vals).map fun q => q.1 - q.2

end core

namespace app

/-- The objective closure `residuos(x)` of the app `calibrar_parametros`
(`modelo_suicidio/calibration.py:78-117`): rebuilds the parameters, calls
`condiciones_iniciales` OUTSIDE any `try` block (so its failure propagates,
modelled as `.error`), wraps only `evaluar_en_puntos` in `try/except`
(sentinel `1e10` vector on failure), and otherwise returns
`T_model - T_obs`.  The integration is abstracted as `integrate`, returning
the `(S, T, R)` lists at the observed years or a failure. -/
def residuos (df : List ObsRow) (params_fijos : ModeloParametros)
    (T_obs : List ℚ)
    (integrate : ModeloParametros → Estado → Except String (List ℚ × List ℚ × List ℚ))
    (x : ℚ × ℚ × ℚ × ℚ) : Except String (List ℚ) :=
  let params := updateCalibrados params_fijos x
  match condiciones_iniciales df params with
  | .error e => .error e
  | .ok (x0_cond, _) =>
    match integrate params x0_cond with
    | .error _ => .ok (T_obs.map fun _ => 10000000000)
    | .ok tSTR => .ok ((tSTR.2.1.zip T_obs).map fun q => q.1 - q.2)

end app

/-- Result record of a `scipy.optimize.least_squares` call, as consumed by
the code after the call: optimal vector `x`, final `cost`, success flag and
termination `message`. -/
structure OptOutcome where
  x : ℚ × ℚ × ℚ × ℚ
  cost : ℚ
  success : Bool
  message : String
deriving Repr, DecidableEq

/-- The termination-message translation of the core `calibrar_parametros`
(`ModeloSuicidio/.../core/calibration.py:105-114`); the Python code tests
substring containment of these exact scipy phrases, modelled as equality
with the full scipy messages. -/
def msg_traducido (m : String) : String :=
  if m = "`ftol` termination condition is satisfied." then
    "Convergencia alcanzada (criterio de tolerancia ftol satisfecho)."
  else if m = "`gtol` termination condition is satisfied." then
    "Convergencia alcanzada (criterio de gradiente gtol satisfecho)."
  else if m = "`xtol` termination condition is satisfied." then
    "Convergencia alcanzada (criterio de paso xtol satisfecho)."
  else if m = "The maximum number of function evaluations is exceeded." then
    "Se excedio el numero maximo de evaluaciones."
  else m

namespace core

/-- `calibrar_parametros(df, params_base, anio_ini, anio_fin, num_theta,
num_gamma, progress_callback)`
(`ModeloSuicidio/.../core/calibration.py:8-132`).  `num_theta` and
`num_gamma` are accepted (defaults 5) but never read by the body, which
uses the fixed starting point `[delta_n, 0.1, 0.3, 10.0]` and the fixed
bounds `([0,0,0,0], [1,1,1,20])`; `progress_callback` is likewise never
called and is omitted here.  `least_squares` is abstracted as `optimizer`
(objective, x0, bounds ↦ result).  The numeric log formatting of
`log_str` is elided; the returned string carries the translated
termination message, its varying content. -/
def calibrar_parametros (df : List ObsRow) (params_base : ModeloParametros)
    (anio_ini anio_fin : Int) (num_theta num_gamma : Nat)
    (optimizer : ((ℚ × ℚ × ℚ × ℚ) → List ℚ) → (ℚ × ℚ × ℚ × ℚ) →
      (List ℚ × List ℚ) → OptOutcome)
    (integrate : ModeloParametros → Estado → Except String (List ℚ)) :
    ModeloParametros × ℚ × String :=
  let df_subset := df.filter fun r => anio_ini ≤ r.anio ∧ r.anio ≤ anio_fin
  let T_obs_vals := df_subset.map fun r => r.T_obs
  let x0 := (params_base.delta_n, (1 : ℚ)/10, (3 : ℚ)/10, (10 : ℚ))
  let bounds := ([(0 : ℚ), 0, 0, 0], [(1 : ℚ), 1, 1, 20])
  let res := optimizer (residuals df params_base anio_ini T_obs_vals integrate)
    x0 bounds
  let final_params := updateCalibrados params_base res.x
  (final_params, res.cost, msg_traducido res.message)

end core

namespace app

/-- `calibrar_parametros(df, params_iniciales, metodo, verbose)`
(`modelo_suicidio/calibration.py:17-180`): starts from the input
`(theta, rho, beta, gamma)`, bounds `θ≥0, ρ≥0, 0≤β≤1, γ≥0` (`np.inf`
modelled as `none`), runs `least_squares` on `residuos` (whose uncaught
initial-condition failure propagates through `least_squares`, hence the
`Except`-valued `optimizer`), rebuilds the calibrated record, and then
recomputes fit metrics by calling `condiciones_iniciales` and
`evaluar_en_puntos` once more OUTSIDE any `try` (lines 167-169), so a
failure there also propagates.  The pure metric arithmetic and printing are
elided. -/
def calibrar_parametros (df : List ObsRow) (params_iniciales : ModeloParametros)
    (optimizer : ((ℚ × ℚ × ℚ × ℚ) → Except String (List ℚ)) →
      (ℚ × ℚ × ℚ × ℚ) → (List ℚ × List (Option ℚ)) → Except String OptOutcome)
    (integrate : ModeloParametros → Estado → Except String (List ℚ × List ℚ × List ℚ)) :
    Except String (ModeloParametros × OptOutcome) :=
  let x0 := (params_iniciales.theta, params_iniciales.rho,
             params_iniciales.beta, params_iniciales.gamma)
  let T_obs := df.map fun r => r.T_obs
  let bounds := ([(0 : ℚ), 0, 0, 0], [none, none, some (1 : ℚ), none])
  match optimizer (residuos df params_iniciales T_obs integrate) x0 bounds with
  | .error e => .error e
  | .ok resultado =>
    let params_calibrados := updateCalibrados params_iniciales resultado.x
    match condiciones_iniciales df params_calibrados with
    | .error e => .error e
    | .ok (x0_cond, _) =>
      match integrate params_calibrados x0_cond with
      | .error e => .error e
      | .ok _ => .ok (params_calibrados, resultado)

end app

/-- Helper: mapping a constant over a list is a replicate of its length. -/
theorem map_const_eq_replicate {α β : Type} (l : List α) (c : β) :
    (l.map fun _ => c) = List.replicate l.length c := by
  induction l with
  | nil => rfl
  | cons a l ih => simp [List.replicate, ih]

/-- C1: for every time `t` and state `(S, T, R)`, with `P` the (floored)
interpolated exogenous population at `t`, both RHS implementations
(`ModeloNoLineal.rhs` and `ModeloSuicidio.rhs`) return exactly the
derivative vector `inflow_influence = beta*delta_s*(T/P)*S`,
`inflow_other = gamma*(1-beta)*delta_s*S`,
`dS = theta*P + (1-delta_n)*R - inflow_other - inflow_influence - delta_s*S - delta_n*S`,
`dT = inflow_other + inflow_influence - rho*T - delta_s*T - delta_n*T`,
`dR = rho*T - R`. -/
theorem C1_rhs_matches_spec_formula (p : ModeloParametros)
    (anios Pser : List ℚ) (t : ℚ) (y : Estado) :
    ModeloNoLineal.rhs p anios Pser t y =
      specDeriv p (ModeloNoLineal.P_val anios Pser t) y ∧
    ModeloSuicidio.rhs p anios Pser t y =
      specDeriv p (ModeloSuicidio.P_val anios Pser t) y :=
  ⟨rfl, rfl⟩

/-- C2 counterexample: with the population series `[1/2, 1/2]` over years
`[2010, 2011]`, the interpolated population at `t = 2010` is `1/2 < 1`, yet
`ModeloNoLineal.rhs` divides by `1/2`, not by `1`: its guard threshold is
`1e-9`, not `1.0`, so the divisor is NOT at least `1.0`. -/
theorem C2_counterexample :
    ModeloNoLineal.P_t [2010, 2011] [1/2, 1/2] 2010 < 1 ∧
    ModeloNoLineal.P_val [2010, 2011] [1/2, 1/2] 2010 = 1/2 ∧
    ¬ (1 ≤ ModeloNoLineal.P_val [2010, 2011] [1/2, 1/2] 2010) := by
  refine ⟨?_, ?_, ?_⟩ <;>
    norm_num [ModeloNoLineal.P_val, ModeloNoLineal.P_t, interp, List.zipWith]

/-- C2 amended: the divisor used by `ModeloSuicidio.rhs` is always at least
`1.0` (the `1.0` floor is applied before the division whenever the
interpolated value is below `1.0`), while the divisor used by
`ModeloNoLineal.rhs` is only guaranteed to be at least `1e-9`: its floor is
applied only when the interpolated value is below `1e-9`. -/
theorem C2_amended_divisor_bounds (anios Pser : List ℚ) (t : ℚ) :
    1 ≤ ModeloSuicidio.P_val anios Pser t ∧
    1 / 1000000000 ≤ ModeloNoLineal.P_val anios Pser t := by
  constructor
  · unfold ModeloSuicidio.P_val
    dsimp only
    split_ifs with h
    · exact le_refl 1
    · exact not_lt.mp h
  · unfold ModeloNoLineal.P_val
    dsimp only
    split_ifs with h
    · norm_num
    · exact not_lt.mp h

/-- C9: the RHS output depends only on the fields `delta_s`, `delta_n`,
`theta`, `rho`, `beta`, `gamma`: two parameter records agreeing on those
six fields (but possibly differing in `delta`, `m`, `phi`, `psi`) give
identical derivative vectors in both implementations, at every time and
state. -/
theorem C9_rhs_depends_only_on_six (p q : ModeloParametros)
    (anios Pser : List ℚ) (t : ℚ) (y : Estado)
    (hds : p.delta_s = q.delta_s) (hdn : p.delta_n = q.delta_n)
    (hth : p.theta = q.theta) (hrho : p.rho = q.rho)
    (hb : p.beta = q.beta) (hg : p.gamma = q.gamma) :
    ModeloNoLineal.rhs p anios Pser t y = ModeloNoLineal.rhs q anios Pser t y ∧
    ModeloSuicidio.rhs p anios Pser t y = ModeloSuicidio.rhs q anios Pser t y := by
  constructor
  · unfold ModeloNoLineal.rhs
    rw [hds, hdn, hth, hrho, hb, hg]
  · unfold ModeloSuicidio.rhs
    rw [hds, hdn, hth, hrho, hb, hg]

/-- C9 witness: two concrete parameter records differing in `delta`, `m`,
`phi`, `psi` only give the same derivatives. -/
theorem C9_witness :
    ModeloNoLineal.rhs ⟨1, 2, 3, 4, 5, 6, 7, 8, 9, 10⟩ [2010] [100] 2010 ⟨1, 2, 3⟩ =
      ModeloNoLineal.rhs ⟨50, 2, 3, 60, 70, 80, 7, 8, 9, 10⟩ [2010] [100] 2010 ⟨1, 2, 3⟩ ∧
    ModeloSuicidio.rhs ⟨1, 2, 3, 4, 5, 6, 7, 8, 9, 10⟩ [2010] [100] 2010 ⟨1, 2, 3⟩ =
      ModeloSuicidio.rhs ⟨50, 2, 3, 60, 70, 80, 7, 8, 9, 10⟩ [2010] [100] 2010 ⟨1, 2, 3⟩ :=
  C9_rhs_depends_only_on_six ⟨1, 2, 3, 4, 5, 6, 7, 8, 9, 10⟩
    ⟨50, 2, 3, 60, 70, 80, 7, 8, 9, 10⟩ [2010] [100] 2010 ⟨1, 2, 3⟩
    rfl rfl rfl rfl rfl rfl

/-- C3 counterexample: with `m = 1`, `phi = 1` and start-year population
`P0 = 1000`, the core Initial Condition Solver
(`core/analysis.py condiciones_iniciales`) computes `S0 = -1000 < 0` and
returns it as-is: no negative component is replaced by zero in this
variant. -/
theorem C3_counterexample :
    core.condiciones_iniciales [⟨2010, 1000, 5⟩] ⟨0, 0, 0, 1, 1, 0, 0, 0, 0, 0⟩ 2010 =
      .ok ⟨-1000, 1000, 1000⟩ ∧ ((-1000 : ℚ) < 0) := by
  constructor
  · norm_num [core.condiciones_iniciales, List.find?]
  · norm_num

/-- C3 amended: both variants compute `T0 = m*P0`, `R0 = phi*T0`,
`S0 = P0 - T0 - R0` from the start-year population, and before clamping
`S0 + T0 + R0 = P0` exactly; but only the app variant
(`modelo_suicidio/analysis.py`) replaces each negative component by zero
with a non-fatal warning (no warning exactly when no component is
negative) while still returning the clamped state — the core variant
(`core/analysis.py`) returns the unclamped values. -/
theorem C3_amended_clamping (row : ObsRow) (rest : List ObsRow)
    (params : ModeloParametros) (T0 R0 S0 : ℚ)
    (hT0 : T0 = params.m * row.poblacion_10ymas_P)
    (hR0 : R0 = params.phi * T0)
    (hS0 : S0 = row.poblacion_10ymas_P - T0 - R0)
    (df : List ObsRow) (anio_ini : Int) (r : ObsRow) (rT0 rR0 rS0 : ℚ)
    (hfind : df.find? (fun x => x.anio == anio_ini) = some r)
    (hrT0 : rT0 = params.m * r.poblacion_10ymas_P)
    (hrR0 : rR0 = params.phi * rT0)
    (hrS0 : rS0 = r.poblacion_10ymas_P - rT0 - rR0) :
    (app.condiciones_iniciales (row :: rest) params =
      .ok (⟨if S0 < 0 then 0 else S0, if T0 < 0 then 0 else T0,
            if R0 < 0 then 0 else R0⟩,
           (if S0 < 0 then ["Advertencia: S0 < 0. Ajustando a 0."] else []) ++
           (if T0 < 0 then ["Advertencia: T0 < 0. Ajustando a 0."] else []) ++
           (if R0 < 0 then ["Advertencia: R0 < 0. Ajustando a 0."] else [])) ∧
     ((if S0 < 0 then ["Advertencia: S0 < 0. Ajustando a 0."] else []) ++
      (if T0 < 0 then ["Advertencia: T0 < 0. Ajustando a 0."] else []) ++
      (if R0 < 0 then ["Advertencia: R0 < 0. Ajustando a 0."] else []) = [] ↔
        0 ≤ S0 ∧ 0 ≤ T0 ∧ 0 ≤ R0)) ∧
    S0 + T0 + R0 = row.poblacion_10ymas_P ∧
    core.condiciones_iniciales df params anio_ini = .ok ⟨rS0, rT0, rR0⟩ := by
  refine ⟨⟨?_, ?_⟩, ?_, ?_⟩
  · subst hS0; subst hR0; subst hT0
    simp only [app.condiciones_iniciales]
    split_ifs <;> rfl
  · split_ifs with h1 h2 h3 <;> simp_all [← not_lt]
  · subst hS0; subst hR0; subst hT0; ring
  · unfold core.condiciones_iniciales
    rw [hfind]
    subst hrS0; subst hrR0; subst hrT0
    rfl

/-- C3 witness: the amended statement at `m = 1`, `phi = 1`, `P0 = 1000`
(so `T0 = R0 = 1000`, `S0 = -1000`): the app variant clamps `S0` to zero
with a warning, the core variant returns `S0 = -1000`, and the pre-clamp
sum is exactly `P0`. -/
theorem C3_witness :
    (app.condiciones_iniciales [⟨2010, 1000, 5⟩] ⟨0, 0, 0, 1, 1, 0, 0, 0, 0, 0⟩ =
      .ok (⟨if (-1000 : ℚ) < 0 then 0 else -1000, if (1000 : ℚ) < 0 then 0 else 1000,
            if (1000 : ℚ) < 0 then 0 else 1000⟩,
           (if (-1000 : ℚ) < 0 then ["Advertencia: S0 < 0. Ajustando a 0."] else []) ++
           (if (1000 : ℚ) < 0 then ["Advertencia: T0 < 0. Ajustando a 0."] else []) ++
           (if (1000 : ℚ) < 0 then ["Advertencia: R0 < 0. Ajustando a 0."] else [])) ∧
     ((if (-1000 : ℚ) < 0 then ["Advertencia: S0 < 0. Ajustando a 0."] else []) ++
      (if (1000 : ℚ) < 0 then ["Advertencia: T0 < 0. Ajustando a 0."] else []) ++
      (if (1000 : ℚ) < 0 then ["Advertencia: R0 < 0. Ajustando a 0."] else []) = [] ↔
        0 ≤ (-1000 : ℚ) ∧ 0 ≤ (1000 : ℚ) ∧ 0 ≤ (1000 : ℚ))) ∧
    (-1000 : ℚ) + 1000 + 1000 = 1000 ∧
    core.condiciones_iniciales [⟨2010, 1000, 5⟩] ⟨0, 0, 0, 1, 1, 0, 0, 0, 0, 0⟩ 2010 =
      .ok ⟨-1000, 1000, 1000⟩ :=
  C3_amended_clamping ⟨2010, 1000, 5⟩ [] ⟨0, 0, 0, 1, 1, 0, 0, 0, 0, 0⟩
    1000 1000 (-1000) (by norm_num) (by norm_num) (by norm_num)
    [⟨2010, 1000, 5⟩] 2010 ⟨2010, 1000, 5⟩ 1000 1000 (-1000)
    rfl (by norm_num) (by norm_num) (by norm_num)

/-- C8: for every observation table and starting year `t0` occurring in no
row, the core Initial Condition Solver fails with the missing-year error
for that very year (it never substitutes another year). -/
theorem C8_missing_year_error (df : List ObsRow) (params : ModeloParametros)
    (t0 : Int) (h : ∀ r ∈ df, r.anio ≠ t0) :
    core.condiciones_iniciales df params t0 = .error (.missingYear t0) := by
  have hf : df.find? (fun r => r.anio == t0) = none := by
    rw [List.find?_eq_none]
    intro r hr
    simpa using h r hr
  unfold core.condiciones_iniciales
  rw [hf]

/-- C8 witness: year 2011 is absent from a one-row table for 2010, and the
solver reports exactly `missingYear 2011`. -/
theorem C8_witness :
    core.condiciones_iniciales [⟨2010, 100, 5⟩] ⟨0, 0, 0, 0, 0, 0, 0, 0, 0, 0⟩ 2011 =
      .error (.missingYear 2011) :=
  C8_missing_year_error _ _ _ (by decide)

/-- C7 counterexample: the app `prueba_escritorio`
(`modelo_suicidio/analysis.py:126`) stores the SIGNED relative error
`(T_model - T_obs) / T_obs`: with one observation `T_obs = 2` and model
value `T_model = 1` it returns `error_rel = -1/2 < 0`, so `error_rel` is
not `|error_abs / T_obs|` and is not non-negative. -/
theorem C7_counterexample :
    (app.prueba_escritorio [⟨2010, 100, 2⟩] [(0, 1, 0)]).map ResRow.error_rel =
      [-(1/2)] ∧ (-(1/2) : ℚ) < 0 := by
  constructor
  · norm_num [app.prueba_escritorio, List.zipWith]
  · norm_num

/-- C7 amended: the core `prueba_escritorio` (`core/analysis.py:62-69`)
left-joins the simulated series onto the observations by year, keeps every
simulated row (output length equals the trajectory length), gives rows
without a matching observation null error fields, and computes
`error_abs = T_model - T_obs`, `error_rel = |error_abs / T_obs| ≥ 0`; the
app `prueba_escritorio` (`modelo_suicidio/analysis.py:110-127`) instead
pairs each observation row with the model value at that year (no join, no
null rows) and stores the SIGNED `error_rel = (T_model - T_obs) / T_obs`. -/
theorem C7_amended_join_and_errors (df : List ObsRow) (sim : List SimRow)
    (m1 : MergedRow) (h1 : m1 ∈ core.prueba_escritorio df sim)
    (hnone : m1.T_obs = none)
    (m2 : MergedRow) (h2 : m2 ∈ core.prueba_escritorio df sim)
    (ob : ℚ) (hsome : m2.T_obs = some ob)
    (adf : List ObsRow) (asim : List (ℚ × ℚ × ℚ))
    (r : ResRow) (hr : r ∈ app.prueba_escritorio adf asim) :
    (core.prueba_escritorio df sim).length = sim.length ∧
    m1.error_abs = none ∧ m1.error_rel = none ∧
    m2.error_abs = some (m2.T_model - ob) ∧
    m2.error_rel = some |(m2.T_model - ob) / ob| ∧
    0 ≤ |(m2.T_model - ob) / ob| ∧
    r.error_abs = r.T_model - r.T_obs ∧
    r.error_rel = (r.T_model - r.T_obs) / r.T_obs := by
  obtain ⟨s1, hs1, hfs1⟩ := List.mem_map.mp h1
  obtain ⟨s2, hs2, hfs2⟩ := List.mem_map.mp h2
  obtain ⟨pr, hpr, hgpr⟩ := List.mem_map.mp hr
  obtain ⟨row, sm, tm, rm⟩ := pr
  refine ⟨?_, ?_, ?_, ?_, ?_, abs_nonneg _, ?_, ?_⟩
  · simp [core.prueba_escritorio]
  · rcases hf1 : df.find? (fun x => ((x.anio : ℚ) == s1.anio)) with _ | r1
    · rw [← hfs1]; simp only [hf1]
    · rw [← hfs1] at hnone; simp only [hf1] at hnone; simp at hnone
  · rcases hf1 : df.find? (fun x => ((x.anio : ℚ) == s1.anio)) with _ | r1
    · rw [← hfs1]; simp only [hf1]
    · rw [← hfs1] at hnone; simp only [hf1] at hnone; simp at hnone
  · rcases hf2 : df.find? (fun x => ((x.anio : ℚ) == s2.anio)) with _ | r2
    · rw [← hfs2] at hsome; simp only [hf2] at hsome; simp at hsome
    · rw [← hfs2] at hsome ⊢
      simp only [hf2] at hsome ⊢
      simp at hsome
      simp [hsome]
  · rcases hf2 : df.find? (fun x => ((x.anio : ℚ) == s2.anio)) with _ | r2
    · rw [← hfs2] at hsome; simp only [hf2] at hsome; simp at hsome
    · rw [← hfs2] at hsome ⊢
      simp only [hf2] at hsome ⊢
      simp at hsome
      simp [hsome]
  · rw [← hgpr]
  · rw [← hgpr]

/-- C7 witness: a two-point trajectory against a one-year observation
table; the 2010 row matches (`error_rel = |(1-2)/2| = 1/2 ≥ 0`), the 2011
row has no observation and keeps null error fields; the app variant on the
same data stores the signed `-1/2`. -/
theorem C7_witness :
    (core.prueba_escritorio [⟨2010, 100, 2⟩]
        [⟨2010, 9, 1, 3⟩, ⟨2011, 4, 5, 6⟩]).length =
      [(⟨2010, 9, 1, 3⟩ : SimRow), ⟨2011, 4, 5, 6⟩].length ∧
    (⟨2011, 4, 5, 6, none, none, none⟩ : MergedRow).error_abs = none ∧
    (⟨2011, 4, 5, 6, none, none, none⟩ : MergedRow).error_rel = none ∧
    (⟨2010, 9, 1, 3, some 2, some (-1), some (1/2)⟩ : MergedRow).error_abs =
      some ((⟨2010, 9, 1, 3, some 2, some (-1), some (1/2)⟩ : MergedRow).T_model - 2) ∧
    (⟨2010, 9, 1, 3, some 2, some (-1), some (1/2)⟩ : MergedRow).error_rel =
      some |((⟨2010, 9, 1, 3, some 2, some (-1), some (1/2)⟩ : MergedRow).T_model - 2) / 2| ∧
    (0 : ℚ) ≤ |((⟨2010, 9, 1, 3, some 2, some (-1), some (1/2)⟩ : MergedRow).T_model - 2) / 2| ∧
    (⟨2010, 100, 2, 1, 0, 0, -1, -(1/2), -50⟩ : ResRow).error_abs =
      (⟨2010, 100, 2, 1, 0, 0, -1, -(1/2), -50⟩ : ResRow).T_model -
        (⟨2010, 100, 2, 1, 0, 0, -1, -(1/2), -50⟩ : ResRow).T_obs ∧
    (⟨2010, 100, 2, 1, 0, 0, -1, -(1/2), -50⟩ : ResRow).error_rel =
      ((⟨2010, 100, 2, 1, 0, 0, -1, -(1/2), -50⟩ : ResRow).T_model -
        (⟨2010, 100, 2, 1, 0, 0, -1, -(1/2), -50⟩ : ResRow).T_obs) /
        (⟨2010, 100, 2, 1, 0, 0, -1, -(1/2), -50⟩ : ResRow).T_obs :=
  C7_amended_join_and_errors [⟨2010, 100, 2⟩] [⟨2010, 9, 1, 3⟩, ⟨2011, 4, 5, 6⟩]
    ⟨2011, 4, 5, 6, none, none, none⟩
    (by
      have hb : ((2010 : ℚ) == (2011 : ℚ)) = false := by
        rw [beq_eq_false_iff_ne]
        norm_num
      norm_num [core.prueba_escritorio, List.find?, hb, beq_iff_eq, abs_of_nonneg])
    rfl
    ⟨2010, 9, 1, 3, some 2, some (-1), some (1/2)⟩
    (by norm_num [core.prueba_escritorio, List.find?, beq_iff_eq, abs_of_nonneg])
    2 rfl
    [⟨2010, 100, 2⟩] [(0, 1, 0)]
    ⟨2010, 100, 2, 1, 0, 0, -1, -(1/2), -50⟩
    (by norm_num [app.prueba_escritorio, List.zipWith])

/-- C4 counterexample: in the app objective `residuos`
(`modelo_suicidio/calibration.py:99-117`) the Initial Condition Solver is
called OUTSIDE the `try` block, so its failure (raised on an empty
observation table) propagates to the optimizer instead of becoming a
sentinel residual vector. -/
theorem C4_counterexample :
    app.residuos [] ⟨0, 0, 0, 0, 0, 0, 0, 0, 0, 0⟩ []
        (fun _ _ => .ok ([], [], [])) (0, 0, 0, 0) =
      .error "IndexError: single positional indexer is out-of-bounds" := rfl

/-- C4 amended: in the core objective `residuals`
(`ModeloSuicidio/.../core/calibration.py:46-97`), both an
initial-condition failure and an integration failure yield the constant
sentinel vector `1e6` of the observed length; in the app objective
`residuos` (`modelo_suicidio/calibration.py:99-117`) only an integration
failure yields the sentinel vector (`1e10`, observed length) — an
initial-condition failure propagates to the optimizer. -/
theorem C4_amended_sentinel_residuals
    (df : List ObsRow) (pb : ModeloParametros) (a0 : Int) (Tv : List ℚ)
    (integ : ModeloParametros → Estado → Except String (List ℚ))
    (pv : ℚ × ℚ × ℚ × ℚ) (e : CoreError)
    (hic : core.condiciones_iniciales df (updateCalibrados pb pv) a0 = .error e)
    (df2 : List ObsRow) (pb2 : ModeloParametros) (a2 : Int) (Tv2 : List ℚ)
    (integ2 : ModeloParametros → Estado → Except String (List ℚ))
    (pv2 : ℚ × ℚ × ℚ × ℚ) (ic2 : Estado) (msg2 : String)
    (hok2 : core.condiciones_iniciales df2 (updateCalibrados pb2 pv2) a2 = .ok ic2)
    (hint2 : integ2 (updateCalibrados pb2 pv2) ic2 = .error msg2)
    (df3 : List ObsRow) (pf3 : ModeloParametros) (Tv3 : List ℚ)
    (integ3 : ModeloParametros → Estado → Except String (List ℚ × List ℚ × List ℚ))
    (pv3 : ℚ × ℚ × ℚ × ℚ) (e3 : String)
    (hic3 : app.condiciones_iniciales df3 (updateCalibrados pf3 pv3) = .error e3)
    (df4 : List ObsRow) (pf4 : ModeloParametros) (Tv4 : List ℚ)
    (integ4 : ModeloParametros → Estado → Except String (List ℚ × List ℚ × List ℚ))
    (pv4 : ℚ × ℚ × ℚ × ℚ) (st4 : Estado) (ws4 : List String) (msg4 : String)
    (hok4 : app.condiciones_iniciales df4 (updateCalibrados pf4 pv4) = .ok (st4, ws4))
    (hint4 : integ4 (updateCalibrados pf4 pv4) st4 = .error msg4) :
    core.residuals df pb a0 Tv integ pv = List.replicate Tv.length 1000000 ∧
    core.residuals df2 pb2 a2 Tv2 integ2 pv2 = List.replicate Tv2.length 1000000 ∧
    app.residuos df3 pf3 Tv3 integ3 pv3 = .error e3 ∧
    app.residuos df4 pf4 Tv4 integ4 pv4 =
      .ok (List.replicate Tv4.length 10000000000) := by
  refine ⟨?_, ?_, ?_, ?_⟩
  · simp only [core.residuals, hic]
    exact map_const_eq_replicate _ _
  · simp only [core.residuals, hok2, hint2]
    exact map_const_eq_replicate _ _
  · simp only [app.residuos, hic3]
  · simp only [app.residuos, hok4, hint4]
    rw [map_const_eq_replicate]

/-- C4 witness: the four failure scenarios at concrete inputs: a missing
start year makes the core objective return `[1e6]`; a failing integrator
makes it return `[1e6]`; an empty table makes the app objective propagate
the raised error; a failing integrator makes the app objective return
`[1e10]`. -/
theorem C4_witness :
    core.residuals [] ⟨0, 0, 0, 0, 0, 0, 0, 0, 0, 0⟩ 2010 [5]
        (fun _ _ => .ok []) (0, 0, 0, 0) =
      List.replicate [(5 : ℚ)].length 1000000 ∧
    core.residuals [⟨2010, 100, 5⟩] ⟨0, 0, 0, 0, 0, 0, 0, 0, 0, 0⟩ 2010 [5]
        (fun _ _ => .error "solver failed") (0, 0, 0, 0) =
      List.replicate [(5 : ℚ)].length 1000000 ∧
    app.residuos [] ⟨0, 0, 0, 0, 0, 0, 0, 0, 0, 0⟩ []
        (fun _ _ => .ok ([], [], [])) (0, 0, 0, 0) =
      .error "IndexError: single positional indexer is out-of-bounds" ∧
    app.residuos [⟨2010, 100, 5⟩] ⟨0, 0, 0, 0, 0, 0, 0, 0, 0, 0⟩ [5]
        (fun _ _ => .error "solver failed") (0, 0, 0, 0) =
      .ok (List.replicate [(5 : ℚ)].length 10000000000) :=
  C4_amended_sentinel_residuals
    [] ⟨0, 0, 0, 0, 0, 0, 0, 0, 0, 0⟩ 2010 [5] (fun _ _ => .ok [])
    (0, 0, 0, 0) (.missingYear 2010) rfl
    [⟨2010, 100, 5⟩] ⟨0, 0, 0, 0, 0, 0, 0, 0, 0, 0⟩ 2010 [5]
    (fun _ _ => .error "solver failed") (0, 0, 0, 0) ⟨100, 0, 0⟩ "solver failed"
    (by norm_num [core.condiciones_iniciales, List.find?, updateCalibrados]) rfl
    [] ⟨0, 0, 0, 0, 0, 0, 0, 0, 0, 0⟩ [] (fun _ _ => .ok ([], [], []))
    (0, 0, 0, 0) "IndexError: single positional indexer is out-of-bounds" rfl
    [⟨2010, 100, 5⟩] ⟨0, 0, 0, 0, 0, 0, 0, 0, 0, 0⟩ [5]
    (fun _ _ => .error "solver failed") (0, 0, 0, 0) ⟨100, 0, 0⟩ [] "solver failed"
    (by norm_num [app.condiciones_iniciales, updateCalibrados]) rfl

/-- C6 counterexample: `ModeloNoLineal.simular`
(`core/nonlinear_model.py:83-86`) does NOT fail when the solver reports
non-success: it prints a warning and still returns the (possibly partial)
trajectory. -/
theorem C6_counterexample :
    ModeloNoLineal.simular ⟨false, "step failure", [2010], [⟨1, 2, 3⟩]⟩ =
      (["Advertencia en simulacion: step failure"], ([2010], [⟨1, 2, 3⟩])) := rfl

/-- C6 amended: on solver non-success, `ModeloSuicidio.simular`
(`modelo_suicidio/model.py:189-190`) fails with a hard error rather than
returning a trajectory, while `ModeloNoLineal.simular`
(`core/nonlinear_model.py:83-86`) merely records a warning and returns the
(possibly partial) trajectory anyway. -/
theorem C6_amended_simulate_failure (sol : IvpSol) (hfail : sol.success = false) :
    ModeloSuicidio.simular sol = .error ("La integracion fallo: " ++ sol.message) ∧
    ModeloNoLineal.simular sol =
      (["Advertencia en simulacion: " ++ sol.message], (sol.ts, sol.ys)) := by
  constructor
  · unfold ModeloSuicidio.simular
    rw [hfail]
    rfl
  · unfold ModeloNoLineal.simular
    rw [hfail]
    rfl

/-- C6 witness: a concrete failed solve. -/
theorem C6_witness :
    ModeloSuicidio.simular ⟨false, "m", [2010], []⟩ =
      .error ("La integracion fallo: " ++ "m") ∧
    ModeloNoLineal.simular ⟨false, "m", [2010], []⟩ =
      (["Advertencia en simulacion: " ++ "m"], ([2010], [])) :=
  C6_amended_simulate_failure ⟨false, "m", [2010], []⟩ rfl

/-- C5: both calibration entry points return a parameter record whose
`delta`, `delta_s`, `delta_n`, `m`, `phi`, `psi` fields equal those of the
input record, whatever the optimizer does; only `theta`, `rho`, `beta`,
`gamma` are replaced (by the optimizer's result vector). -/
theorem C5_fixed_fields_preserved
    (df : List ObsRow) (pb : ModeloParametros) (a0 a1 : Int) (nT nG : Nat)
    (opt : ((ℚ × ℚ × ℚ × ℚ) → List ℚ) → (ℚ × ℚ × ℚ × ℚ) →
      (List ℚ × List ℚ) → OptOutcome)
    (integ : ModeloParametros → Estado → Except String (List ℚ))
    (df2 : List ObsRow) (pi2 : ModeloParametros)
    (opt2 : ((ℚ × ℚ × ℚ × ℚ) → Except String (List ℚ)) → (ℚ × ℚ × ℚ × ℚ) →
      (List ℚ × List (Option ℚ)) → Except String OptOutcome)
    (integ2 : ModeloParametros → Estado → Except String (List ℚ × List ℚ × List ℚ))
    (out : ModeloParametros × OptOutcome)
    (hok : app.calibrar_parametros df2 pi2 opt2 integ2 = .ok out) :
    ((core.calibrar_parametros df pb a0 a1 nT nG opt integ).1.delta = pb.delta ∧
     (core.calibrar_parametros df pb a0 a1 nT nG opt integ).1.delta_s = pb.delta_s ∧
     (core.calibrar_parametros df pb a0 a1 nT nG opt integ).1.delta_n = pb.delta_n ∧
     (core.calibrar_parametros df pb a0 a1 nT nG opt integ).1.m = pb.m ∧
     (core.calibrar_parametros df pb a0 a1 nT nG opt integ).1.phi = pb.phi ∧
     (core.calibrar_parametros df pb a0 a1 nT nG opt integ).1.psi = pb.psi) ∧
    (out.1.delta = pi2.delta ∧ out.1.delta_s = pi2.delta_s ∧
     out.1.delta_n = pi2.delta_n ∧ out.1.m = pi2.m ∧
     out.1.phi = pi2.phi ∧ out.1.psi = pi2.psi) := by
  constructor
  · exact ⟨rfl, rfl, rfl, rfl, rfl, rfl⟩
  · simp only [app.calibrar_parametros] at hok
    split at hok
    · simp at hok
    · split at hok
      · simp at hok
      · split at hok
        · simp at hok
        · simp only [Except.ok.injEq] at hok
          rw [← hok]
          exact ⟨rfl, rfl, rfl, rfl, rfl, rfl⟩

/-- C5 witness: a concrete optimizer returning `(20, 30, 40, 50)`: the
calibrated records keep the six fixed fields of the inputs. -/
theorem C5_witness :
    ((core.calibrar_parametros [⟨2010, 100, 5⟩] ⟨1, 2, 3, 4, 5, 6, 7, 8, 9, 10⟩
        2010 2011 5 5 (fun _ _ _ => ⟨(20, 30, 40, 50), 0, true, "ok"⟩)
        (fun _ _ => .ok [])).1.delta =
          (⟨1, 2, 3, 4, 5, 6, 7, 8, 9, 10⟩ : ModeloParametros).delta ∧
     (core.calibrar_parametros [⟨2010, 100, 5⟩] ⟨1, 2, 3, 4, 5, 6, 7, 8, 9, 10⟩
        2010 2011 5 5 (fun _ _ _ => ⟨(20, 30, 40, 50), 0, true, "ok"⟩)
        (fun _ _ => .ok [])).1.delta_s =
          (⟨1, 2, 3, 4, 5, 6, 7, 8, 9, 10⟩ : ModeloParametros).delta_s ∧
     (core.calibrar_parametros [⟨2010, 100, 5⟩] ⟨1, 2, 3, 4, 5, 6, 7, 8, 9, 10⟩
        2010 2011 5 5 (fun _ _ _ => ⟨(20, 30, 40, 50), 0, true, "ok"⟩)
        (fun _ _ => .ok [])).1.delta_n =
          (⟨1, 2, 3, 4, 5, 6, 7, 8, 9, 10⟩ : ModeloParametros).delta_n ∧
     (core.calibrar_parametros [⟨2010, 100, 5⟩] ⟨1, 2, 3, 4, 5, 6, 7, 8, 9, 10⟩
        2010 2011 5 5 (fun _ _ _ => ⟨(20, 30, 40, 50), 0, true, "ok"⟩)
        (fun _ _ => .ok [])).1.m =
          (⟨1, 2, 3, 4, 5, 6, 7, 8, 9, 10⟩ : ModeloParametros).m ∧
     (core.calibrar_parametros [⟨2010, 100, 5⟩] ⟨1, 2, 3, 4, 5, 6, 7, 8, 9, 10⟩
        2010 2011 5 5 (fun _ _ _ => ⟨(20, 30, 40, 50), 0, true, "ok"⟩)
        (fun _ _ => .ok [])).1.phi =
          (⟨1, 2, 3, 4, 5, 6, 7, 8, 9, 10⟩ : ModeloParametros).phi ∧
     (core.calibrar_parametros [⟨2010, 100, 5⟩] ⟨1, 2, 3, 4, 5, 6, 7, 8, 9, 10⟩
        2010 2011 5 5 (fun _ _ _ => ⟨(20, 30, 40, 50), 0, true, "ok"⟩)
        (fun _ _ => .ok [])).1.psi =
          (⟨1, 2, 3, 4, 5, 6, 7, 8, 9, 10⟩ : ModeloParametros).psi) ∧
    ((⟨1, 2, 3, 0, 0, 6, 20, 30, 40, 50⟩ : ModeloParametros).delta =
       (⟨1, 2, 3, 0, 0, 6, 7, 8, 9, 10⟩ : ModeloParametros).delta ∧
     (⟨1, 2, 3, 0, 0, 6, 20, 30, 40, 50⟩ : ModeloParametros).delta_s =
       (⟨1, 2, 3, 0, 0, 6, 7, 8, 9, 10⟩ : ModeloParametros).delta_s ∧
     (⟨1, 2, 3, 0, 0, 6, 20, 30, 40, 50⟩ : ModeloParametros).delta_n =
       (⟨1, 2, 3, 0, 0, 6, 7, 8, 9, 10⟩ : ModeloParametros).delta_n ∧
     (⟨1, 2, 3, 0, 0, 6, 20, 30, 40, 50⟩ : ModeloParametros).m =
       (⟨1, 2, 3, 0, 0, 6, 7, 8, 9, 10⟩ : ModeloParametros).m ∧
     (⟨1, 2, 3, 0, 0, 6, 20, 30, 40, 50⟩ : ModeloParametros).phi =
       (⟨1, 2, 3, 0, 0, 6, 7, 8, 9, 10⟩ : ModeloParametros).phi ∧
     (⟨1, 2, 3, 0, 0, 6, 20, 30, 40, 50⟩ : ModeloParametros).psi =
       (⟨1, 2, 3, 0, 0, 6, 7, 8, 9, 10⟩ : ModeloParametros).psi) :=
  C5_fixed_fields_preserved [⟨2010, 100, 5⟩] ⟨1, 2, 3, 4, 5, 6, 7, 8, 9, 10⟩
    2010 2011 5 5 (fun _ _ _ => ⟨(20, 30, 40, 50), 0, true, "ok"⟩)
    (fun _ _ => .ok [])
    [⟨2010, 100, 5⟩] ⟨1, 2, 3, 0, 0, 6, 7, 8, 9, 10⟩
    (fun _ _ _ => .ok ⟨(20, 30, 40, 50), 0, true, "ok"⟩)
    (fun _ _ => .ok ([], [], []))
    (⟨1, 2, 3, 0, 0, 6, 20, 30, 40, 50⟩, ⟨(20, 30, 40, 50), 0, true, "ok"⟩)
    (by norm_num [app.calibrar_parametros, app.condiciones_iniciales,
      updateCalibrados])

/-- C10: the core windowed calibration entry point never reads its
`num_theta` and `num_gamma` arguments (its starting point and bounds are
fixed internally), so its whole result — calibrated parameters, final
cost and message — is identical for any two values of those arguments. -/
theorem C10_result_independent_of_mesh_args (df : List ObsRow)
    (pb : ModeloParametros) (a0 a1 : Int) (n1 g1 n2 g2 : Nat)
    (opt : ((ℚ × ℚ × ℚ × ℚ) → List ℚ) → (ℚ × ℚ × ℚ × ℚ) →
      (List ℚ × List ℚ) → OptOutcome)
    (integ : ModeloParametros → Estado → Except String (List ℚ)) :
    core.calibrar_parametros df pb a0 a1 n1 g1 opt integ =
      core.calibrar_parametros df pb a0 a1 n2 g2 opt integ := rfl
